import Mathlib

set_option maxHeartbeats 1000000

namespace EEPlugin

/-!
Shallow embedding of the QGIS Earth Engine plugin sources:
`src/ee_plugin/ee_plugin.py` (the replay-on-project-load operation
`_updateLayers` and the `check_version` utility), together with a
spec-modelled export-parameter shim whose implementation file is not part
of the sources (only its tests are).
-/

/-- A host map layer together with the custom properties the plugin reads:
the remote-layer marker (customProperty "ee-layer"), the serialized
remote-object expression (customProperty "ee-object"), the visualization
spec (customProperty "ee-object-vis"), plus the layer id, display name and
the (possibly absent) renderer carrying an opacity. -/
structure Layer where
  id : Nat
  name : String
  eeLayer : Bool
  eeObject : Option String
  eeObjectVis : Option String
  renderer : Option Int
deriving DecidableEq, Repr

/-- A node of the project layer tree: `layerTreeRoot().findLayer(id)`
resolves a layer id to such a node, which carries the checked-visibility
flag. -/
structure TreeNode where
  layerId : Nat
  itemVisibilityChecked : Bool
deriving DecidableEq, Repr

/-- One invocation of the add-or-update remote layer operation: the five
values `_updateLayers` passes (deserialized object, parsed vis spec, name,
shown flag, opacity). -/
structure ReplayCall (α β : Type) where
  obj : α
  vis : Option β
  name : String
  shown : Bool
  opacity : Int
deriving Repr

/-- Project state seen by `_updateLayers`: the map-layer collection with
their stored custom properties, the layer tree, and the live rendering
side (the tile layers reconstructed so far). -/
structure ProjectState (α β : Type) where
  layers : List Layer
  tree : List TreeNode
  live : List (ReplayCall α β)
deriving Repr

/-- Python exceptions that can escape `_updateLayers`: a deserialization
failure from `ee.deserializer.fromJSON`, a `json.loads` failure, or the
`AttributeError` raised by calling a method on `None`. -/
inductive PyError where
  | deserError
  | jsonError
  | attributeError
deriving DecidableEq, Repr

/-- Outcome of one `_updateLayers` run: how many legacy-layer warnings were
printed and which exception, if any, escaped. -/
structure ReplayOutcome where
  warnings : Nat
  error : Option PyError
deriving DecidableEq, Repr

/-- Modelled from the spec: `utils.add_or_update_ee_layer` is imported from
`.utils`, which is not among the sources. Per the spec, re-issuing "the add
or update remote layer operation with these five values" reconstructs the
live rendering layer and "only mutates the live rendering layer, never the
stored metadata". -/
def add_or_update_ee_layer (st : ProjectState α β) (c : ReplayCall α β) :
    ProjectState α β :=
  { st with live := st.live ++ [c] }

/-- The conditional `json.loads` on the stored vis spec: absent vis specs
are passed through as `None`, present ones are parsed (which may raise). -/
def parseVis (loads : String → Except Unit β) :
    Option String → Except Unit (Option β)
  | none => Except.ok none
  | some v => (loads v).map some

/-- `layerTreeRoot().findLayer(id)`: resolve a layer id in the tree. -/
def findLayerNode (tree : List TreeNode) (i : Nat) : Option TreeNode :=
  tree.find? (fun n => n.layerId == i)

/-- The loop body of `GoogleEarthEnginePlugin._updateLayers`, iterating the
snapshot of the layer collection. Mirrors the source: skip layers without
the "ee-layer" marker; on a marked layer without a stored "ee-object",
print the backward-compatibility warning and return from the whole
function; otherwise deserialize the object (may raise), parse the vis spec
(may raise), look up the tree node and renderer (attribute access on a
missing one raises), and re-issue the add-or-update operation. An
exception aborts the loop; effects already performed persist. -/
def updateLayersGo (fromJSON : String → Except Unit α)
    (loads : String → Except Unit β) :
    ProjectState α β → List Layer → ProjectState α β × ReplayOutcome
  | st, [] => (st, ⟨0, none⟩)
  | st, l :: rest =>
    if l.eeLayer then
      match l.eeObject with
      | none => (st, ⟨1, none⟩)
      | some s =>
        match fromJSON s with
        | Except.error _ => (st, ⟨0, some PyError.deserError⟩)
        | Except.ok obj =>
          match parseVis loads l.eeObjectVis with
          | Except.error _ => (st, ⟨0, some PyError.jsonError⟩)
          | Except.ok vis =>
            match findLayerNode st.tree l.id with
            | none => (st, ⟨0, some PyError.attributeError⟩)
            | some node =>
              match l.renderer with
              | none => (st, ⟨0, some PyError.attributeError⟩)
              | some op =>
                updateLayersGo fromJSON loads
                  (add_or_update_ee_layer st
                    ⟨obj, vis, l.name, node.itemVisibilityChecked, op⟩)
                  rest
    else updateLayersGo fromJSON loads st rest

/-- `GoogleEarthEnginePlugin._updateLayers`: take the snapshot of
`QgsProject.instance().mapLayers().values()` and run the replay loop. -/
def updateLayers (fromJSON : String → Except Unit α)
    (loads : String → Except Unit β) (st : ProjectState α β) :
    ProjectState α β × ReplayOutcome :=
  updateLayersGo fromJSON loads st st.layers

/-- Possible outcomes of the HTTP GET for the published version string:
success with the plain-text body, or one of the exception classes the
handler distinguishes (requests.RequestException — which includes
Timeout —, ValueError, or any other Exception). -/
inductive NetOutcome where
  | ok (text : String)
  | requestException
  | valueError
  | otherException
deriving DecidableEq, Repr

/-- Python exception classes relevant to `check_version`. -/
inductive PyExc where
  | requestException
  | valueError
  | otherException
deriving DecidableEq, Repr

/-- The `requests.get(...).text` call: returns the body on success, raises
otherwise. -/
def requestsGet : NetOutcome → Except PyExc String
  | NetOutcome.ok t => Except.ok t
  | NetOutcome.requestException => Except.error PyExc.requestException
  | NetOutcome.valueError => Except.error PyExc.valueError
  | NetOutcome.otherException => Except.error PyExc.otherException

/-- Observable effects of one `check_version` invocation: whether the HTTP
request was issued, whether the upgrade notification was pushed to the
message bar, and whether an error was printed to the console. -/
structure CheckEffects where
  madeRequest : Bool
  notified : Bool
  loggedError : Bool
deriving DecidableEq, Repr

/-- The effects of an invocation that did nothing at all. -/
def noEffects : CheckEffects := ⟨false, false, false⟩

/-- `GoogleEarthEnginePlugin.check_version`: if the global
`version_checked` flag is already set, return immediately; otherwise issue
the GET inside try/except/finally. Success compares the local VERSION
string against the returned text with plain string ordering and pushes the
notification when VERSION is smaller; each exception class has a catching
clause that prints it; the finally clause sets the flag in every case.
The result is the new flag value and the effects, wrapped in `Except` to
record that no modelled exception escapes. -/
def check_version (VERSION : String) (version_checked : Bool)
    (net : NetOutcome) : Except PyExc (Bool × CheckEffects) :=
  if version_checked then Except.ok (version_checked, noEffects)
  else
    match requestsGet net with
    | Except.ok latest_version =>
        Except.ok (true, ⟨true, decide (VERSION < latest_version), false⟩)
    | Except.error PyExc.requestException =>
        Except.ok (true, ⟨true, false, true⟩)
    | Except.error PyExc.valueError =>
        Except.ok (true, ⟨true, false, true⟩)
    | Except.error PyExc.otherException =>
        Except.ok (true, ⟨true, false, true⟩)

/-- Whether a `check_version` run pushed the upgrade notification. -/
def notifiedOf : Except PyExc (Bool × CheckEffects) → Bool
  | Except.ok (_, eff) => eff.notified
  | Except.error _ => false

/-- An axis-aligned extent rectangle. Coordinates are modelled as integers;
the export shim never computes with them, it only carries them. -/
structure Rect where
  xmin : Int
  ymin : Int
  xmax : Int
  ymax : Int
deriving DecidableEq, Repr

/-- An extent: a rectangle plus the CRS its coordinates are expressed in. -/
structure Extent where
  rect : Rect
  crs : String
deriving DecidableEq, Repr

/-- The parameter dictionary of an export invocation: the index selecting a
tracked remote raster layer, the optional extent, the scale, the target
CRS identifier, and the output path. -/
structure ExportParams where
  ee_image : Nat
  extent : Option Extent
  scale : Int
  projection : String
  output : String
deriving DecidableEq, Repr

/-- Failure conditions of the export shim: the out-of-bounds layer lookup
(IndexError) and the missing-extent validation failure (ValueError). -/
inductive ExportError where
  | indexError
  | valueError
deriving DecidableEq, Repr

/-- The request issued to the remote service: selected layer, extent
(rectangle plus the CRS it is expressed in), scale, and target CRS. -/
structure ExportRequest where
  layer : String
  extent : Extent
  scale : Int
  crs : String
deriving DecidableEq, Repr

/-- Result of one `processAlgorithm` run: the raised failure if any, the
remote request issued if any, and the written output file (path together
with the CRS metadata recorded in the raster) if any. -/
structure ExportResult where
  error : Option ExportError
  request : Option ExportRequest
  fileWritten : Option (String × String)
deriving DecidableEq, Repr

/-- Modelled from the spec: `ExportGeoTIFFAlgorithm.processAlgorithm`
(module `ee_plugin.processing.export_geotiff`) is not among the sources;
only its tests are. Per the spec it looks the selected index up in the
tracked raster-layer list, failing out-of-bounds if it matches nothing
(the empty list being the degenerate case, checked before the extent);
fails the invalid-parameters validation if the extent is unset, before any
network call or file write; reprojects the extent geometry into the target
CRS when the extent's source CRS differs from it, before constructing the
request; then issues the request with the extent expressed in the target
CRS and writes the raster, whose CRS metadata reports the target CRS. The
reprojection itself is a call into an existing geodesy library, taken here
as the parameter `reproject`. -/
def processAlgorithm (reproject : String → String → Rect → Rect)
    (raster_layers : List String) (p : ExportParams) : ExportResult :=
  match raster_layers[p.ee_image]? with
  | none => ⟨some ExportError.indexError, none, none⟩
  | some lyr =>
    match p.extent with
    | none => ⟨some ExportError.valueError, none, none⟩
    | some e =>
      let e' : Extent :=
        if e.crs = p.projection then e
        else ⟨reproject e.crs p.projection e.rect, p.projection⟩
      ⟨none, some ⟨lyr, e', p.scale, p.projection⟩,
        some (p.output, p.projection)⟩

/-! Concrete sample data used by the closed evaluation theorems and the
witnesses. -/

/-- A legacy layer: marked as a remote layer but with no stored
remote-object expression. -/
def legacyLayer : Layer := ⟨1, "legacy", true, none, none, some 1⟩

/-- A well-formed remote layer whose stored expression deserializes. -/
def goodLayer : Layer := ⟨2, "good", true, some "OBJ", none, some 1⟩

/-- A second well-formed remote layer. -/
def goodLayer2 : Layer := ⟨4, "good2", true, some "OBJ2", none, some 1⟩

/-- A remote layer whose stored expression fails to deserialize under
`demoFromJSON`. -/
def badLayer : Layer := ⟨3, "bad", true, some "BAD", none, some 1⟩

/-- A remote layer whose id has no node in `demoTree`. -/
def orphanLayer : Layer := ⟨99, "orphan", true, some "OBJ", none, some 1⟩

/-- A layer tree holding nodes for the sample layers. -/
def demoTree : List TreeNode := [⟨1, true⟩, ⟨2, true⟩, ⟨3, true⟩, ⟨4, false⟩]

/-- A sample deserializer that fails exactly on the text "BAD". -/
def demoFromJSON : String → Except Unit String :=
  fun s => if s = "BAD" then Except.error () else Except.ok s

/-- A sample vis-spec parser that always succeeds. -/
def demoLoads : String → Except Unit String := fun s => Except.ok s

/-- A project state with the given layers, the sample tree and an empty
live rendering side. -/
def demoState (ls : List Layer) : ProjectState String String :=
  ⟨ls, demoTree, []⟩

/-! Helper lemmas about the replay loop. -/

/-- The replay loop never changes the stored layer collection or the layer
tree: only the live rendering side of the state moves. -/
theorem updateLayersGo_preserves (fromJSON : String → Except Unit α)
    (loads : String → Except Unit β) :
    ∀ (ls : List Layer) (st : ProjectState α β),
      (updateLayersGo fromJSON loads st ls).1.layers = st.layers ∧
      (updateLayersGo fromJSON loads st ls).1.tree = st.tree := by
  intro ls
  induction ls with
  | nil => intro st; simp [updateLayersGo]
  | cons l rest ih =>
    intro st
    by_cases hl : l.eeLayer = true
    · cases hobj : l.eeObject with
      | none => simp [updateLayersGo, hl, hobj]
      | some s =>
        cases hf : fromJSON s with
        | error e => simp [updateLayersGo, hl, hobj, hf]
        | ok obj =>
          cases hv : parseVis loads l.eeObjectVis with
          | error e => simp [updateLayersGo, hl, hobj, hf, hv]
          | ok vis =>
            cases hn : findLayerNode st.tree l.id with
            | none => simp [updateLayersGo, hl, hobj, hf, hv, hn]
            | some node =>
              cases hr : l.renderer with
              | none => simp [updateLayersGo, hl, hobj, hf, hv, hn, hr]
              | some op =>
                simp only [updateLayersGo, hl, hobj, hf, hv, hn, hr, if_true]
                simpa [add_or_update_ee_layer] using
                  ih (add_or_update_ee_layer st
                    ⟨obj, vis, l.name, node.itemVisibilityChecked, op⟩)
    · simp only [updateLayersGo, hl, if_false, Bool.false_eq_true, ite_false]
      exact ih st

/-- When a prefix of the layer list replays cleanly (no warning, no
exception), the loop on the whole list runs the prefix first and continues
from the resulting state. -/
theorem updateLayersGo_append (fromJSON : String → Except Unit α)
    (loads : String → Except Unit β) :
    ∀ (pre : List Layer) (st : ProjectState α β) (rest : List Layer),
      (updateLayersGo fromJSON loads st pre).2 = ⟨0, none⟩ →
      updateLayersGo fromJSON loads st (pre ++ rest) =
        updateLayersGo fromJSON loads
          (updateLayersGo fromJSON loads st pre).1 rest := by
  intro pre
  induction pre with
  | nil => intro st rest _; simp [updateLayersGo]
  | cons l pre ih =>
    intro st rest h
    by_cases hl : l.eeLayer = true
    · cases hobj : l.eeObject with
      | none => simp [updateLayersGo, hl, hobj] at h
      | some s =>
        cases hf : fromJSON s with
        | error e => simp [updateLayersGo, hl, hobj, hf] at h
        | ok obj =>
          cases hv : parseVis loads l.eeObjectVis with
          | error e => simp [updateLayersGo, hl, hobj, hf, hv] at h
          | ok vis =>
            cases hn : findLayerNode st.tree l.id with
            | none => simp [updateLayersGo, hl, hobj, hf, hv, hn] at h
            | some node =>
              cases hr : l.renderer with
              | none => simp [updateLayersGo, hl, hobj, hf, hv, hn, hr] at h
              | some op =>
                simp only [updateLayersGo, hl, hobj, hf, hv, hn, hr,
                  if_true, List.cons_append] at h ⊢
                exact ih (add_or_update_ee_layer st
                  ⟨obj, vis, l.name, node.itemVisibilityChecked, op⟩) rest h
    · simp only [updateLayersGo, hl, if_false, Bool.false_eq_true, ite_false,
        List.cons_append] at h ⊢
      exact ih st rest h

/-! Claim theorems. -/

/-- C1: evaluation of the replay operation at the failing input — a project
whose layer collection holds a legacy layer (marker set, no stored
remote-object expression) followed by a well-formed remote layer. The run
emits exactly one diagnostic and raises nothing, but it returns from the
whole loop at the legacy layer: the live rendering side stays empty, so
the well-formed layer appearing after the legacy one is never
reconstructed, against the claim that every well-formed layer still is. -/
theorem updateLayers_legacy_aborts_replay :
    updateLayers demoFromJSON demoLoads (demoState [legacyLayer, goodLayer]) =
      (demoState [legacyLayer, goodLayer], ⟨1, none⟩) := rfl

/-- C5 counterexample: a project whose first marked layer carries a stored
expression that fails to deserialize, followed by a well-formed layer. The
deserialization failure escapes `_updateLayers` (error `deserError`) and
the well-formed remaining layer is never reconstructed (the live side
stays empty), so the failure is not isolated to the bad layer. -/
theorem updateLayers_deser_failure_aborts :
    updateLayers demoFromJSON demoLoads (demoState [badLayer, goodLayer]) =
      (demoState [badLayer, goodLayer],
        ⟨0, some PyError.deserError⟩) := rfl

/-- C5 (amended): when deserializing a layer's stored expression or parsing
its vis spec fails, the exception propagates out of `_updateLayers`:
layers replayed before the failing one keep their reconstruction, but the
state no longer changes past it — every remaining layer is skipped and the
run ends with an exception, so failures are not isolated per layer. -/
theorem updateLayers_failure_not_isolated
    (fromJSON : String → Except Unit α) (loads : String → Except Unit β)
    (st : ProjectState α β) (pre post : List Layer) (b : Layer) (s : String)
    (hpre : (updateLayersGo fromJSON loads st pre).2 = ⟨0, none⟩)
    (hm : b.eeLayer = true) (ho : b.eeObject = some s)
    (hfail : fromJSON s = Except.error () ∨
      (∃ a, fromJSON s = Except.ok a ∧
        parseVis loads b.eeObjectVis = Except.error ())) :
    (updateLayersGo fromJSON loads st (pre ++ b :: post)).1 =
      (updateLayersGo fromJSON loads st pre).1 ∧
    ((updateLayersGo fromJSON loads st (pre ++ b :: post)).2).error.isSome
      = true := by
  rw [updateLayersGo_append fromJSON loads pre st (b :: post) hpre]
  rcases hfail with hf | ⟨a, hf, hv⟩
  · simp [updateLayersGo, hm, ho, hf]
  · simp [updateLayersGo, hm, ho, hf, hv]

/-- C5 witness: the amended statement applied at a concrete project with a
clean layer, then a layer whose expression fails deserialization, then
another clean layer. -/
theorem updateLayers_failure_not_isolated_witness :
    (updateLayersGo demoFromJSON demoLoads
        (demoState [goodLayer, badLayer, goodLayer2])
        ([goodLayer] ++ badLayer :: [goodLayer2])).1 =
      (updateLayersGo demoFromJSON demoLoads
        (demoState [goodLayer, badLayer, goodLayer2]) [goodLayer]).1 ∧
    ((updateLayersGo demoFromJSON demoLoads
        (demoState [goodLayer, badLayer, goodLayer2])
        ([goodLayer] ++ badLayer :: [goodLayer2])).2).error.isSome = true :=
  updateLayers_failure_not_isolated demoFromJSON demoLoads
    (demoState [goodLayer, badLayer, goodLayer2]) [goodLayer] [goodLayer2]
    badLayer "BAD" (by rfl) (by rfl) (by rfl) (Or.inl (by rfl))

/-- C9: the replay operation is read-only with respect to the persisted
layer records: the layer collection with its stored custom-property fields
(and the layer tree) is identical before and after `_updateLayers`; only
the live rendering side of the state is mutated. -/
theorem updateLayers_readonly (fromJSON : String → Except Unit α)
    (loads : String → Except Unit β) (st : ProjectState α β) :
    (updateLayers fromJSON loads st).1.layers = st.layers ∧
    (updateLayers fromJSON loads st).1.tree = st.tree :=
  updateLayersGo_preserves fromJSON loads st.layers st

/-- C10: if a marked layer with a stored expression deserializes and parses
fine but has no node in the project layer tree, or no renderer, the
attribute access raises (`attributeError` escapes) and replay of all
remaining layers is aborted: the state stops at whatever the clean prefix
produced. -/
theorem updateLayers_missing_node_or_renderer_raises
    (fromJSON : String → Except Unit α) (loads : String → Except Unit β)
    (st : ProjectState α β) (pre post : List Layer) (b : Layer) (s : String)
    (a : α) (vis : Option β)
    (hpre : (updateLayersGo fromJSON loads st pre).2 = ⟨0, none⟩)
    (hm : b.eeLayer = true) (ho : b.eeObject = some s)
    (hf : fromJSON s = Except.ok a)
    (hv : parseVis loads b.eeObjectVis = Except.ok vis)
    (hmiss : findLayerNode st.tree b.id = none ∨ b.renderer = none) :
    updateLayersGo fromJSON loads st (pre ++ b :: post) =
      ((updateLayersGo fromJSON loads st pre).1,
        ⟨0, some PyError.attributeError⟩) := by
  rw [updateLayersGo_append fromJSON loads pre st (b :: post) hpre]
  have htree : (updateLayersGo fromJSON loads st pre).1.tree = st.tree :=
    (updateLayersGo_preserves fromJSON loads pre st).2
  rcases hmiss with hn | hr
  · simp [updateLayersGo, hm, ho, hf, hv, htree, hn]
  · cases hn2 : findLayerNode (updateLayersGo fromJSON loads st pre).1.tree
      b.id with
    | none => simp [updateLayersGo, hm, ho, hf, hv, hn2]
    | some node => simp [updateLayersGo, hm, ho, hf, hv, hn2, hr]

/-- C10 witness: a marked layer with a stored expression whose id has no
node in the layer tree, followed by a well-formed layer; the run raises
the attribute error and reconstructs nothing. -/
theorem updateLayers_missing_node_witness :
    updateLayersGo demoFromJSON demoLoads
        (demoState [orphanLayer, goodLayer])
        ([] ++ orphanLayer :: [goodLayer]) =
      ((updateLayersGo demoFromJSON demoLoads
          (demoState [orphanLayer, goodLayer]) []).1,
        ⟨0, some PyError.attributeError⟩) :=
  updateLayers_missing_node_or_renderer_raises demoFromJSON demoLoads
    (demoState [orphanLayer, goodLayer]) [] [goodLayer] orphanLayer "OBJ"
    "OBJ" none (by rfl) (by rfl) (by rfl) (by rfl) (by rfl)
    (Or.inl (by rfl))

/-- C6: the version check runs at most once per session. After any
completed `check_version` invocation — whatever the outcome of the
request — the `version_checked` flag is `true`, and any call made with the
flag already set returns immediately with no effects at all (in
particular, no network request). -/
theorem check_version_at_most_once (VERSION : String) (flag : Bool)
    (net nextNet : NetOutcome) :
    (∃ eff, check_version VERSION flag net = Except.ok (true, eff)) ∧
    check_version VERSION true nextNet = Except.ok (true, noEffects) := by
  constructor
  · cases flag
    · cases net <;> exact ⟨_, rfl⟩
    · exact ⟨noEffects, rfl⟩
  · rfl

/-- C7: on a successful request, `check_version` pushes the upgrade
notification exactly when the local VERSION string is smaller than the
returned text in plain lexicographic string order; otherwise (local equal
to or greater than remote) no notification is shown. -/
theorem check_version_notifies_iff (VERSION text : String) :
    notifiedOf (check_version VERSION false (NetOutcome.ok text)) = true ↔
      VERSION < text := by
  simp [check_version, requestsGet, notifiedOf]

/-- C8: every modelled outcome of the version-check network request —
success, a requests.RequestException (timeout included), a ValueError, or
any other Exception — is caught inside `check_version`: the function
always returns normally and no exception propagates out. -/
theorem check_version_catches_all_errors (VERSION : String) (flag : Bool)
    (net : NetOutcome) :
    ∃ r, check_version VERSION flag net = Except.ok r := by
  cases flag <;> cases net <;> exact ⟨_, rfl⟩

/-- C2: when the extent's source CRS differs from the requested target CRS,
the export shim reprojects the extent geometry into the target CRS before
building the request: the issued request carries the reprojected rectangle
expressed in the target CRS, and the written raster's CRS metadata reports
the target CRS. -/
theorem processAlgorithm_reprojects_extent
    (reproject : String → String → Rect → Rect) (raster_layers : List String)
    (p : ExportParams) (lyr : String) (e : Extent)
    (hl : raster_layers[p.ee_image]? = some lyr)
    (he : p.extent = some e) (hc : e.crs ≠ p.projection) :
    processAlgorithm reproject raster_layers p =
      ⟨none,
        some ⟨lyr, ⟨reproject e.crs p.projection e.rect, p.projection⟩,
          p.scale, p.projection⟩,
        some (p.output, p.projection)⟩ := by
  simp [processAlgorithm, hl, he, hc]

/-- C2 witness: a concrete export of layer "DEM_WEB" with an EPSG:3857
extent and target EPSG:4326, under a sample reprojection function. -/
theorem processAlgorithm_reprojects_extent_witness :
    processAlgorithm (fun _ _ r => r) ["DEM_WEB"]
        ⟨0, some ⟨⟨-13700000, 6300000, -13680000, 6320000⟩, "EPSG:3857"⟩,
          30, "EPSG:4326", "test_extent_transformed.tif"⟩ =
      ⟨none,
        some ⟨"DEM_WEB",
          ⟨⟨-13700000, 6300000, -13680000, 6320000⟩, "EPSG:4326"⟩,
          30, "EPSG:4326"⟩,
        some ("test_extent_transformed.tif", "EPSG:4326")⟩ :=
  processAlgorithm_reprojects_extent (fun _ _ r => r) ["DEM_WEB"]
    ⟨0, some ⟨⟨-13700000, 6300000, -13680000, 6320000⟩, "EPSG:3857"⟩,
      30, "EPSG:4326", "test_extent_transformed.tif"⟩
    "DEM_WEB" ⟨⟨-13700000, 6300000, -13680000, 6320000⟩, "EPSG:3857"⟩
    rfl rfl (by decide)

/-- C3: an export invocation with a valid layer selection but no extent
fails the validation with the ValueError condition, issuing no request to
the remote service and writing no output file. -/
theorem processAlgorithm_requires_extent
    (reproject : String → String → Rect → Rect) (raster_layers : List String)
    (p : ExportParams) (hl : p.ee_image < raster_layers.length)
    (he : p.extent = none) :
    processAlgorithm reproject raster_layers p =
      ⟨some ExportError.valueError, none, none⟩ := by
  have hsome : raster_layers[p.ee_image]? = some raster_layers[p.ee_image] :=
    List.getElem?_eq_getElem hl
  simp [processAlgorithm, hsome, he]

/-- C3 witness: a concrete export with one tracked layer and a null
extent. -/
theorem processAlgorithm_requires_extent_witness :
    0 < (["DEM"] : List String).length ∧
    processAlgorithm (fun _ _ r => r) ["DEM"]
        ⟨0, none, 1000, "EPSG:4326", "test.tif"⟩ =
      ⟨some ExportError.valueError, none, none⟩ :=
  ⟨by decide,
    processAlgorithm_requires_extent (fun _ _ r => r) ["DEM"]
      ⟨0, none, 1000, "EPSG:4326", "test.tif"⟩ (by decide) rfl⟩

/-- C4: an export invocation whose selected index matches no tracked remote
raster layer — in particular any index against the empty list — fails with
the out-of-bounds IndexError condition, issuing no request and writing no
output file. -/
theorem processAlgorithm_layer_not_found
    (reproject : String → String → Rect → Rect) (raster_layers : List String)
    (p : ExportParams) (hl : raster_layers.length ≤ p.ee_image) :
    processAlgorithm reproject raster_layers p =
      ⟨some ExportError.indexError, none, none⟩ := by
  have hnone : raster_layers[p.ee_image]? = none := by
    simp [List.getElem?_eq_none hl]
  simp [processAlgorithm, hnone]

/-- C4 witness: index 0 against the empty tracked-layer list. -/
theorem processAlgorithm_layer_not_found_witness :
    (([] : List String).length ≤ 0) ∧
    processAlgorithm (fun _ _ r => r) []
        ⟨0, none, 1000, "EPSG:4326", "test.tif"⟩ =
      ⟨some ExportError.indexError, none, none⟩ :=
  ⟨by decide,
    processAlgorithm_layer_not_found (fun _ _ r => r) []
      ⟨0, none, 1000, "EPSG:4326", "test.tif"⟩ (by decide)⟩

end EEPlugin
